import Mathlib

/-!
Verification of the WMS (warehouse management system) movement-ledger and
slot-state engine against its specification.

The repository stores its state in SQLite tables.  We embed the durable
state shallowly: each table is a list of typed rows, in table (rowid)
order; an SQL `UPDATE ... WHERE` is a `List.map` that rewrites the matching
rows in place; an `INSERT` appends a row at the end; a `SELECT ... WHERE
... LIMIT`/`fetchone` is `List.find?`.  A SQLite transaction makes nothing
durable until `commit`: operations that may fail partway are parameterised
by `failAt : Option Nat`, the index of the statement (or the final commit)
that raises, and return the durable state observed after the call — the
original state when the transaction never committed, the fully updated
state when it did.

Two divergent schemas coexist in the source and are embedded separately:
the English one (`init_db.py`, `app.py`, `backend/main.py`: tables
`products` / `locations` / `movements`, status in Libre / Ocupada) and the
Spanish one (`database.py`: tables `productos` / `ubicaciones` /
`movimientos`, estado in Disponible / Ocupada).
-/

namespace WMS

/-! ## English schema: data model (init_db.py) -/

/-- Movement kind, per the CHECK constraint `type IN ('Entrada','Salida')`
on the `movements` table.  `Entrada` is Inbound, `Salida` is Outbound. -/
inductive Tipo where
  | Entrada
  | Salida
deriving DecidableEq

/-- Slot status, per the CHECK constraint `status IN ('Libre','Ocupada')`
on the `locations` table.  `Libre` is Free, `Ocupada` is Occupied. -/
inductive Status where
  | Libre
  | Ocupada
deriving DecidableEq

/-- A row of the `products` table. -/
structure Product where
  sku : String
  name : String
  category : String
deriving DecidableEq

/-- A row of the `locations` table; `product_sku` is nullable. -/
structure Location where
  position_id : String
  status : Status
  product_sku : Option String
deriving DecidableEq

/-- A row of the `movements` table (the ledger). -/
structure Movement where
  date : String
  type : Tipo
  sku : String
  quantity : Int
  position_id : String
deriving DecidableEq

/-- The durable English-schema database state. -/
structure DBState where
  products : List Product
  locations : List Location
  movements : List Movement
deriving DecidableEq

/-! ## English schema: operations -/

/-- The `UPDATE locations` statement issued by both movement-registration
paths: `Entrada` sets the matching rows to (Ocupada, sku), `Salida` sets
them to (Libre, NULL).  Rows with a different `position_id` are
untouched. -/
def applyLocationUpdate (tipo : Tipo) (sku pos : String) (locs : List Location) :
    List Location :=
  match tipo with
  | Tipo.Entrada =>
      locs.map (fun l =>
        if l.position_id = pos then Location.mk l.position_id Status.Ocupada (some sku) else l)
  | Tipo.Salida =>
      locs.map (fun l =>
        if l.position_id = pos then Location.mk l.position_id Status.Libre none else l)

/-- `register_movement` from `app.py`.  No validation is performed: the
movement row is inserted, the location row is updated (for both kinds),
and a single `conn.commit()` publishes both.  `failAt` injects a failure:
`some 0` means the INSERT raises, `some 1` means the UPDATE raises,
`some 2` means the commit raises; in each case nothing was committed, so
the durable state is unchanged, the exception is caught and `False`
returned. -/
def register_movement (failAt : Option Nat) (timestamp : String) (tipo : Tipo)
    (sku : String) (qty : Int) (position_id : String) (db : DBState) : Bool × DBState :=
  if failAt = some 0 then
    (false, db)
  else
    let pending1 := DBState.mk db.products db.locations
      (db.movements ++ [Movement.mk timestamp tipo sku qty position_id])
    if failAt = some 1 then
      (false, db)
    else
      let pending2 := DBState.mk pending1.products
        (applyLocationUpdate tipo sku position_id pending1.locations) pending1.movements
      if failAt = some 2 then
        (false, db)
      else
        (true, pending2)

/-- Request body of `POST /api/register-movement` (`MovementRequest` in
`backend/main.py`). -/
structure MovementRequest where
  type : Tipo
  sku : String
  quantity : Int
  position_id : String
deriving DecidableEq

def msgLocationNotFree : String := "Location is not free"

def msgProductNotAtLocation : String := "Product not at this location"

def msgMovementRegistered : String := "Movement registered successfully"

/-- `api_register_movement` from `backend/main.py`.  For `Entrada` the
target location must exist and be `Libre`; for `Salida` the location must
exist and its `product_sku` must equal the requested SKU; otherwise an
HTTP 400 is raised before any write (embedded as `Except.error` with the
`detail` string, durable state unchanged).  On acceptance the movement is
inserted, the location updated and both committed together.  Quantity and
catalog membership are never checked. -/
def api_register_movement (timestamp : String) (move : MovementRequest) (db : DBState) :
    Except String String × DBState :=
  match move.type with
  | Tipo.Entrada =>
    match db.locations.find? (fun l => l.position_id = move.position_id) with
    | none => (Except.error msgLocationNotFree, db)
    | some l =>
      if l.status = Status.Libre then
        (Except.ok msgMovementRegistered,
          DBState.mk db.products
            (applyLocationUpdate Tipo.Entrada move.sku move.position_id db.locations)
            (db.movements ++
              [Movement.mk timestamp Tipo.Entrada move.sku move.quantity move.position_id]))
      else
        (Except.error msgLocationNotFree, db)
  | Tipo.Salida =>
    match db.locations.find? (fun l => l.position_id = move.position_id) with
    | none => (Except.error msgProductNotAtLocation, db)
    | some l =>
      if l.product_sku = some move.sku then
        (Except.ok msgMovementRegistered,
          DBState.mk db.products
            (applyLocationUpdate Tipo.Salida move.sku move.position_id db.locations)
            (db.movements ++
              [Movement.mk timestamp Tipo.Salida move.sku move.quantity move.position_id]))
      else
        (Except.error msgProductNotAtLocation, db)

/-- Zero-padded rendering of `i` as in the Python f-string pattern with a
two-digit width (identical to it for every natural number). -/
def pad2 (i : Nat) : String := if i < 10 then ("0" ++ toString i) else toString i

/-- Position identifier of the `i`-th seeded slot: A-01, A-02, ... -/
def posId (i : Nat) : String := "A-" ++ pad2 i

/-- The twenty seed rows inserted by `init_db` into `locations`. -/
def seedLocations : List Location :=
  (List.range' 1 20).map (fun i => Location.mk (posId i) Status.Libre none)

/-- The four sample rows inserted by `init_db` into `products`. -/
def seedProducts : List Product :=
  [Product.mk ("P001") ("Laptop Dell") ("Electronica"),
   Product.mk ("P002") ("Monitor Samsung") ("Electronica"),
   Product.mk ("P003") ("Silla de Oficina") ("Mobiliario"),
   Product.mk ("P004") ("Escritorio") ("Mobiliario")]

/-- `init_db` from `init_db.py`: creates the tables when absent (a no-op
on an already-shaped state) and seeds `locations` and `products` only when
the corresponding `SELECT COUNT(*)` returns 0. -/
def init_db (db : DBState) : DBState :=
  let db1 :=
    if db.locations.length = 0 then DBState.mk db.products seedLocations db.movements else db
  if db1.products.length = 0 then DBState.mk seedProducts db1.locations db1.movements else db1

/-- The empty database, before any table has rows. -/
def emptyDB : DBState := DBState.mk [] [] []

/-- The state produced by the first bootstrap run. -/
def seededDB : DBState := init_db emptyDB

/-- A row of the inventory report of `get_inventory` in `app.py`. -/
structure InventoryRow where
  sku : String
  name : String
  category : String
  total_quantity : Int
deriving DecidableEq

/-- Signed contribution of one ledger row to its SKU's stock, per the SQL
CASE expression: `Entrada` adds the quantity, `Salida` subtracts it. -/
def movementNet (m : Movement) : Int :=
  match m.type with
  | Tipo.Entrada => m.quantity
  | Tipo.Salida => -m.quantity

/-- `get_inventory` from `app.py`: `products LEFT JOIN movements` on SKU,
grouped by product (SKU is the primary key), summing the CASE expression
with `COALESCE(..., 0)` for products without movements. -/
def get_inventory (db : DBState) : List InventoryRow :=
  db.products.map (fun p =>
    InventoryRow.mk p.sku p.name p.category
      (((db.movements.filter (fun m => m.sku = p.sku)).map movementNet).sum))

/-- `get_locations` from `app.py`: all `locations` rows, no ORDER BY, so
table (rowid) order. -/
def get_locations (db : DBState) : List Location := db.locations

/-- Derived stock of one SKU, the `total_quantity` that `get_inventory`
computes for it. -/
def currentStock (sku : String) (movs : List Movement) : Int :=
  ((movs.filter (fun m => m.sku = sku)).map movementNet).sum

/-! ## Spanish schema: data model (database.py) -/

/-- Estado of an `ubicaciones` row: 'Disponible' (free) or 'Ocupada'. -/
inductive Estado where
  | Disponible
  | Ocupada
deriving DecidableEq

/-- A row of the `productos` table. -/
structure Producto where
  sku : String
  nombre : String
  descripcion : String
  categoria : String
deriving DecidableEq

/-- A row of the `ubicaciones` table; `sku_producto` is nullable. -/
structure Ubicacion where
  id : String
  estado : Estado
  sku_producto : Option String
deriving DecidableEq

/-- Movement kind written by `database.py`: 'ENTRADA' or 'SALIDA'. -/
inductive TipoMov where
  | ENTRADA
  | SALIDA
deriving DecidableEq

/-- A row of the `movimientos` table.  `sku_producto` is nullable (the
schema declares no NOT NULL constraint and `registrar_salida` inserts
whatever occupant it read). -/
structure Movimiento where
  tipo : TipoMov
  sku_producto : Option String
  ubicacion_id : String
  usuario : String
deriving DecidableEq

/-- The durable Spanish-schema database state. -/
structure SpState where
  productos : List Producto
  ubicaciones : List Ubicacion
  movimientos : List Movimiento
deriving DecidableEq

/-- The empty Spanish-schema database. -/
def emptySp : SpState := SpState.mk [] [] []

/-! ## Spanish schema: operations -/

/-- One iteration of the seeding loop of `crear_ubicaciones_ejemplo`: the
INSERT succeeds when no row with that primary key exists, and the
IntegrityError of a duplicate key is swallowed (`pass`). -/
def insertUbicacion (sp : SpState) (i : Nat) : SpState :=
  if sp.ubicaciones.any (fun u => u.id = posId i) then sp
  else
    SpState.mk sp.productos (sp.ubicaciones ++ [Ubicacion.mk (posId i) Estado.Disponible none])
      sp.movimientos

/-- `crear_ubicaciones_ejemplo` from `database.py`: inserts A-01 .. A-NN
(estado 'Disponible'), skipping identifiers that already exist. -/
def crear_ubicaciones_ejemplo (cantidad : Nat) (sp : SpState) : SpState :=
  (List.range' 1 cantidad).foldl insertUbicacion sp

def msgUbicacionNoExiste : String := "Ubicación no existe."

def msgYaOcupada (uid : String) : String :=
  "La ubicación " ++ uid ++ " ya está ocupada."

def msgYaVacia : String := "La ubicación ya está vacía."

def msgErrorBD : String := "Error en base de datos"

def msgEntradaExitosa (sku uid : String) : String :=
  "Entrada exitosa: " ++ sku ++ " en " ++ uid

/-- Python's rendering of a nullable SKU inside an f-string. -/
def optStr (o : Option String) : String :=
  match o with
  | none => "None"
  | some s => s

def msgSalidaExitosa (sku : Option String) (uid : String) : String :=
  "Salida exitosa: " ++ optStr sku ++ " despachado de " ++ uid

/-- `registrar_entrada` from `database.py`: reads the slot's estado; a
missing slot or an 'Ocupada' slot is rejected with no write; otherwise the
UPDATE (to Ocupada, sku) and the INSERT of the 'ENTRADA' movement run in
one transaction.  `failAt = some 0/1/2` makes the UPDATE, the INSERT or
the commit raise; the handler calls `conn.rollback()`, so the durable
state is unchanged. -/
def registrar_entrada (failAt : Option Nat) (sku uid usuario : String) (sp : SpState) :
    (Bool × String) × SpState :=
  match sp.ubicaciones.find? (fun u => u.id = uid) with
  | none => ((false, msgUbicacionNoExiste), sp)
  | some u =>
    if u.estado = Estado.Ocupada then
      ((false, msgYaOcupada uid), sp)
    else if failAt = some 0 then
      ((false, msgErrorBD), sp)
    else
      let pending1 := SpState.mk sp.productos
        (sp.ubicaciones.map (fun v =>
          if v.id = uid then Ubicacion.mk v.id Estado.Ocupada (some sku) else v))
        sp.movimientos
      if failAt = some 1 then
        ((false, msgErrorBD), sp)
      else
        let pending2 := SpState.mk pending1.productos pending1.ubicaciones
          (pending1.movimientos ++ [Movimiento.mk TipoMov.ENTRADA (some sku) uid usuario])
        if failAt = some 2 then
          ((false, msgErrorBD), sp)
        else
          ((true, msgEntradaExitosa sku uid), pending2)

/-- `registrar_salida` from `database.py`: reads the slot's estado and
occupant; a missing slot or a 'Disponible' slot is rejected with no write;
otherwise the occupant `sku_anterior` is taken from the registry row, the
UPDATE (to Disponible, NULL) and the INSERT of the 'SALIDA' movement
carrying `sku_anterior` run in one transaction, with the same rollback
discipline as `registrar_entrada`. -/
def registrar_salida (failAt : Option Nat) (uid usuario : String) (sp : SpState) :
    (Bool × String) × SpState :=
  match sp.ubicaciones.find? (fun u => u.id = uid) with
  | none => ((false, msgUbicacionNoExiste), sp)
  | some u =>
    if u.estado = Estado.Disponible then
      ((false, msgYaVacia), sp)
    else if failAt = some 0 then
      ((false, msgErrorBD), sp)
    else
      let pending1 := SpState.mk sp.productos
        (sp.ubicaciones.map (fun v =>
          if v.id = uid then Ubicacion.mk v.id Estado.Disponible none else v))
        sp.movimientos
      if failAt = some 1 then
        ((false, msgErrorBD), sp)
      else
        let pending2 := SpState.mk pending1.productos pending1.ubicaciones
          (pending1.movimientos ++ [Movimiento.mk TipoMov.SALIDA u.sku_producto uid usuario])
        if failAt = some 2 then
          ((false, msgErrorBD), sp)
        else
          ((true, msgSalidaExitosa u.sku_producto uid), pending2)

/-- A row of `obtener_estado_almacen`: Ubicacion, Estado, SKU, and the
product columns brought in by the LEFT JOIN (NULL when the slot is free
or the SKU has no catalog row). -/
structure EstadoRow where
  ubicacion : String
  estado : Estado
  skuCol : Option String
  producto : Option String
  categoria : Option String
deriving DecidableEq

/-- Ordering relation of the `ORDER BY u.id ASC` clause. -/
def ubicacionLE (a b : Ubicacion) : Prop := a.id ≤ b.id

instance : DecidableRel ubicacionLE := fun a b => inferInstanceAs (Decidable (a.id ≤ b.id))

instance : IsTotal Ubicacion ubicacionLE := ⟨fun a b => le_total a.id b.id⟩

instance : IsTrans Ubicacion ubicacionLE := ⟨fun _ _ _ h h2 => le_trans h h2⟩

/-- `obtener_estado_almacen` from `database.py`: all `ubicaciones` rows
LEFT JOINed with `productos` on the occupant SKU, ORDER BY id ascending. -/
def obtener_estado_almacen (sp : SpState) : List EstadoRow :=
  (sp.ubicaciones.insertionSort ubicacionLE).map (fun u =>
    match u.sku_producto.bind (fun s => sp.productos.find? (fun p => p.sku = s)) with
    | none => EstadoRow.mk u.id u.estado u.sku_producto none none
    | some p => EstadoRow.mk u.id u.estado u.sku_producto (some p.nombre) (some p.categoria))

/-! ## Committed effects and inversion lemmas -/

/-- The combined durable effect of one committed movement on the English
state: the ledger row is appended and the location rows with the target
identifier are rewritten. -/
def applyMovement (timestamp : String) (tipo : Tipo) (sku : String) (qty : Int)
    (pos : String) (db : DBState) : DBState :=
  DBState.mk db.products (applyLocationUpdate tipo sku pos db.locations)
    (db.movements ++ [Movement.mk timestamp tipo sku qty pos])

/-- A `register_movement` call either leaves the durable state untouched
and reports failure, or commits the full combined effect and reports
success; no third outcome exists. -/
theorem register_movement_cases (f : Option Nat) (t : String) (tipo : Tipo)
    (sku : String) (qty : Int) (pos : String) (db : DBState) :
    register_movement f t tipo sku qty pos db = (false, db) ∨
    register_movement f t tipo sku qty pos db =
      (true, applyMovement t tipo sku qty pos db) := by
  by_cases h0 : f = some 0
  · left; simp [register_movement, h0]
  · by_cases h1 : f = some 1
    · left; simp [register_movement, h0, h1]
    · by_cases h2 : f = some 2
      · left; simp [register_movement, h0, h1, h2]
      · right; simp [register_movement, applyMovement, h0, h1, h2]

/-- Inversion of an accepted API movement: the guard that held and the
combined effect that was committed. -/
theorem api_accept_inversion (t : String) (move : MovementRequest) (db : DBState)
    (msg : String) (db' : DBState)
    (h : api_register_movement t move db = (Except.ok msg, db')) :
    ∃ l, db.locations.find? (fun x => x.position_id = move.position_id) = some l ∧
      ((move.type = Tipo.Entrada ∧ l.status = Status.Libre) ∨
       (move.type = Tipo.Salida ∧ l.product_sku = some move.sku)) ∧
      db' = applyMovement t move.type move.sku move.quantity move.position_id db := by
  cases hty : move.type with
  | Entrada =>
    simp only [api_register_movement, hty] at h
    split at h
    · simp at h
    · rename_i l hf
      split at h
      · rename_i hs
        simp only [Prod.mk.injEq, Except.ok.injEq] at h
        exact ⟨l, hf, Or.inl ⟨rfl, hs⟩, by rw [← h.2]; rfl⟩
      · simp at h
  | Salida =>
    simp only [api_register_movement, hty] at h
    split at h
    · simp at h
    · rename_i l hf
      split at h
      · rename_i hs
        simp only [Prod.mk.injEq, Except.ok.injEq] at h
        exact ⟨l, hf, Or.inr ⟨rfl, hs⟩, by rw [← h.2]; rfl⟩
      · simp at h

/-- A rejected API movement leaves the durable state untouched. -/
theorem api_reject_state (t : String) (move : MovementRequest) (db : DBState)
    (msg : String) (h : (api_register_movement t move db).1 = Except.error msg) :
    (api_register_movement t move db).2 = db := by
  cases hty : move.type with
  | Entrada =>
    simp only [api_register_movement, hty] at h ⊢
    split at h
    · rename_i hf
      simp [hf]
    · rename_i l hf
      split at h
      · simp at h
      · rename_i hs
        simp [hf, hs]
  | Salida =>
    simp only [api_register_movement, hty] at h ⊢
    split at h
    · rename_i hf
      simp [hf]
    · rename_i l hf
      split at h
      · simp at h
      · rename_i hs
        simp [hf, hs]

/-! ## Ledger replay (the registry-equals-ledger invariant of the spec) -/

/-- One fold step of the spec's replay: an Inbound row sends the slot to
(Ocupada, its SKU), an Outbound row to (Libre, none), whatever the
accumulator was. -/
def replayStep (_s : Status × Option String) (m : Movement) : Status × Option String :=
  match m.type with
  | Tipo.Entrada => (Status.Ocupada, some m.sku)
  | Tipo.Salida => (Status.Libre, none)

/-- Replay of a (filtered) ledger from the initial Free state. -/
def replay (movs : List Movement) : Status × Option String :=
  movs.foldl replayStep (Status.Libre, none)

theorem replay_append (movs : List Movement) (m : Movement) :
    replay (movs ++ [m]) = replayStep (replay movs) m := by
  simp [replay, List.foldl_append]

/-- The registry-equals-ledger consistency predicate: for every slot row,
replaying the full ledger filtered to its position yields exactly its
current status and occupant SKU. -/
def ledgerConsistent (db : DBState) : Prop :=
  ∀ l ∈ db.locations,
    replay (db.movements.filter (fun m => m.position_id = l.position_id)) =
      (l.status, l.product_sku)

/-- A committed movement preserves registry-equals-ledger consistency:
the slot it names is rewritten to exactly the state the appended ledger
row replays to, and every other slot's filtered ledger is unchanged. -/
theorem ledgerConsistent_applyMovement (t : String) (tipo : Tipo) (sku : String)
    (qty : Int) (pos : String) (db : DBState) (h : ledgerConsistent db) :
    ledgerConsistent (applyMovement t tipo sku qty pos db) := by
  intro l' hl'
  cases tipo with
  | Entrada =>
    simp only [applyMovement, applyLocationUpdate] at hl' ⊢
    rcases List.mem_map.mp hl' with ⟨l, hl, heq⟩
    by_cases hpos : l.position_id = pos
    · simp only [hpos, if_pos rfl] at heq
      rw [← heq]
      simp [List.filter_append, hpos, replay_append, replayStep]
    · simp only [if_neg hpos] at heq
      rw [← heq]
      have : ¬((pos : String) = l.position_id) := fun hc => hpos hc.symm
      simp [List.filter_append, this]
      exact h l hl
  | Salida =>
    simp only [applyMovement, applyLocationUpdate] at hl' ⊢
    rcases List.mem_map.mp hl' with ⟨l, hl, heq⟩
    by_cases hpos : l.position_id = pos
    · simp only [hpos, if_pos rfl] at heq
      rw [← heq]
      simp [List.filter_append, hpos, replay_append, replayStep]
    · simp only [if_neg hpos] at heq
      rw [← heq]
      have : ¬((pos : String) = l.position_id) := fun hc => hpos hc.symm
      simp [List.filter_append, this]
      exact h l hl

/-! ## Spanish-schema committed effects and inversion lemmas -/

/-- The combined durable effect of a committed `registrar_entrada`. -/
def applyEntrada (sku uid usuario : String) (sp : SpState) : SpState :=
  SpState.mk sp.productos
    (sp.ubicaciones.map (fun v =>
      if v.id = uid then Ubicacion.mk v.id Estado.Ocupada (some sku) else v))
    (sp.movimientos ++ [Movimiento.mk TipoMov.ENTRADA (some sku) uid usuario])

/-- The combined durable effect of a committed `registrar_salida` that
read `skuAnterior` as the occupant. -/
def applySalida (uid usuario : String) (skuAnterior : Option String) (sp : SpState) : SpState :=
  SpState.mk sp.productos
    (sp.ubicaciones.map (fun v =>
      if v.id = uid then Ubicacion.mk v.id Estado.Disponible none else v))
    (sp.movimientos ++ [Movimiento.mk TipoMov.SALIDA skuAnterior uid usuario])

/-- A `registrar_entrada` call either leaves the durable state untouched
(rejection, or rollback after a mid-transaction failure) or commits the
full combined effect. -/
theorem registrar_entrada_cases (f : Option Nat) (sku uid usuario : String) (sp : SpState) :
    (registrar_entrada f sku uid usuario sp).2 = sp ∨
    (registrar_entrada f sku uid usuario sp).2 = applyEntrada sku uid usuario sp := by
  unfold registrar_entrada
  cases hf : sp.ubicaciones.find? (fun u => u.id = uid) with
  | none => left; rfl
  | some u =>
    by_cases ho : u.estado = Estado.Ocupada
    · left; simp [ho]
    · by_cases h0 : f = some 0
      · left; simp [ho, h0]
      · by_cases h1 : f = some 1
        · left; simp [ho, h0, h1]
        · by_cases h2 : f = some 2
          · left; simp [ho, h0, h1, h2]
          · right; simp [ho, h0, h1, h2, applyEntrada]

/-- A `registrar_salida` call either leaves the durable state untouched
or commits the full combined effect carrying the occupant it read. -/
theorem registrar_salida_cases (f : Option Nat) (uid usuario : String) (sp : SpState) :
    (registrar_salida f uid usuario sp).2 = sp ∨
    ∃ u, sp.ubicaciones.find? (fun v => v.id = uid) = some u ∧
      (registrar_salida f uid usuario sp).2 = applySalida uid usuario u.sku_producto sp := by
  unfold registrar_salida
  cases hf : sp.ubicaciones.find? (fun u => u.id = uid) with
  | none => left; rfl
  | some u =>
    by_cases ho : u.estado = Estado.Disponible
    · left; simp [ho]
    · by_cases h0 : f = some 0
      · left; simp [ho, h0]
      · by_cases h1 : f = some 1
        · left; simp [ho, h0, h1]
        · by_cases h2 : f = some 2
          · left; simp [ho, h0, h1, h2]
          · right; exact ⟨u, rfl, by simp [ho, h0, h1, h2, applySalida]⟩

/-- The success equation of `registrar_salida` on an occupied slot: it
reports success and commits, recording in the outbound ledger row exactly
the SKU that occupied the slot when it was called. -/
theorem registrar_salida_success (uid usuario : String) (sp : SpState) (u : Ubicacion)
    (hf : sp.ubicaciones.find? (fun v => v.id = uid) = some u)
    (ho : u.estado = Estado.Ocupada) :
    registrar_salida none uid usuario sp =
      ((true, msgSalidaExitosa u.sku_producto uid), applySalida uid usuario u.sku_producto sp) := by
  unfold registrar_salida
  rw [hf]
  have hd : ¬(u.estado = Estado.Disponible) := by rw [ho]; simp
  simp [hd, applySalida]

/-! ## Reachable histories -/

/-- English-schema states reachable from the seeded initial state through
the two movement-registration paths: `register_movement` from `app.py`
(any request, any injected failure) and accepted calls of
`api_register_movement` from `backend/main.py`. -/
inductive ReachableEn : DBState → Prop where
  | seed : ReachableEn seededDB
  | app (db : DBState) (failAt : Option Nat) (t : String) (tipo : Tipo) (sku : String)
      (qty : Int) (pos : String) (h : ReachableEn db) :
      ReachableEn (register_movement failAt t tipo sku qty pos db).2
  | api (db : DBState) (t : String) (move : MovementRequest) (msg : String) (db' : DBState)
      (h : ReachableEn db) (hok : api_register_movement t move db = (Except.ok msg, db')) :
      ReachableEn db'

/-- Spanish-schema states reachable from the seeded set of twenty free
ubicaciones through `registrar_entrada` and `registrar_salida`, with any
injected failure. -/
inductive ReachableSp : SpState → Prop where
  | seed : ReachableSp (crear_ubicaciones_ejemplo 20 emptySp)
  | entrada (sp : SpState) (failAt : Option Nat) (sku uid usuario : String)
      (h : ReachableSp sp) :
      ReachableSp (registrar_entrada failAt sku uid usuario sp).2
  | salida (sp : SpState) (failAt : Option Nat) (uid usuario : String) (h : ReachableSp sp) :
      ReachableSp (registrar_salida failAt uid usuario sp).2

/-- English-schema states reachable from the seeded initial state through
accepted API movements only, each carrying quantity 1. -/
inductive ReachableUnit : DBState → Prop where
  | seed : ReachableUnit seededDB
  | api (db : DBState) (t : String) (move : MovementRequest) (msg : String) (db' : DBState)
      (h : ReachableUnit db) (hq : move.quantity = 1)
      (hok : api_register_movement t move db = (Except.ok msg, db')) :
      ReachableUnit db'

/-- The registry-equals-ledger invariant holds on every reachable
English-schema state. -/
theorem reachableEn_ledgerConsistent (db : DBState) (h : ReachableEn db) :
    ledgerConsistent db := by
  induction h with
  | seed => unfold ledgerConsistent; decide
  | app db f t tipo sku qty pos _ ih =>
    rcases register_movement_cases f t tipo sku qty pos db with hc | hc
    · rw [hc]; exact ih
    · rw [hc]; exact ledgerConsistent_applyMovement t tipo sku qty pos db ih
  | api db t move msg db' _ hok ih =>
    rcases api_accept_inversion t move db msg db' hok with ⟨l, _, _, heff⟩
    rw [heff]
    exact ledgerConsistent_applyMovement t move.type move.sku move.quantity move.position_id db ih

/-! ## The slot-record invariant (status matches occupant) -/

/-- Slot-record invariant of the English schema: a location row is
Ocupada exactly when its SKU column is set, Libre exactly when it is
NULL. -/
def slotInvariant (db : DBState) : Prop :=
  ∀ l ∈ db.locations,
    (l.status = Status.Ocupada ↔ l.product_sku.isSome = true) ∧
    (l.status = Status.Libre ↔ l.product_sku = none)

/-- Slot-record invariant of the Spanish schema. -/
def slotInvariantSp (sp : SpState) : Prop :=
  ∀ u ∈ sp.ubicaciones,
    (u.estado = Estado.Ocupada ↔ u.sku_producto.isSome = true) ∧
    (u.estado = Estado.Disponible ↔ u.sku_producto = none)

/-- A committed movement preserves the English slot-record invariant. -/
theorem slotInvariant_applyMovement (t : String) (tipo : Tipo) (sku : String) (qty : Int)
    (pos : String) (db : DBState) (h : slotInvariant db) :
    slotInvariant (applyMovement t tipo sku qty pos db) := by
  intro l' hl'
  cases tipo <;> simp only [applyMovement, applyLocationUpdate] at hl' <;>
    rcases List.mem_map.mp hl' with ⟨l, hl, heq⟩ <;> by_cases hpos : l.position_id = pos
  · simp only [hpos, if_pos rfl] at heq
    rw [← heq]
    simp
  · simp only [if_neg hpos] at heq
    rw [← heq]
    exact h l hl
  · simp only [hpos, if_pos rfl] at heq
    rw [← heq]
    simp
  · simp only [if_neg hpos] at heq
    rw [← heq]
    exact h l hl

/-- A committed entrada preserves the Spanish slot-record invariant. -/
theorem slotInvariantSp_applyEntrada (sku uid usuario : String) (sp : SpState)
    (h : slotInvariantSp sp) : slotInvariantSp (applyEntrada sku uid usuario sp) := by
  intro u' hu'
  simp only [applyEntrada] at hu'
  rcases List.mem_map.mp hu' with ⟨u, hu, heq⟩
  by_cases hid : u.id = uid
  · simp only [hid, if_pos rfl] at heq
    rw [← heq]
    simp
  · simp only [if_neg hid] at heq
    rw [← heq]
    exact h u hu

/-- A committed salida preserves the Spanish slot-record invariant. -/
theorem slotInvariantSp_applySalida (uid usuario : String) (skuAnt : Option String)
    (sp : SpState) (h : slotInvariantSp sp) :
    slotInvariantSp (applySalida uid usuario skuAnt sp) := by
  intro u' hu'
  simp only [applySalida] at hu'
  rcases List.mem_map.mp hu' with ⟨u, hu, heq⟩
  by_cases hid : u.id = uid
  · simp only [hid, if_pos rfl] at heq
    rw [← heq]
    simp
  · simp only [if_neg hid] at heq
    rw [← heq]
    exact h u hu

/-- The slot-record invariant holds on every reachable English state. -/
theorem reachableEn_slotInvariant (db : DBState) (h : ReachableEn db) :
    slotInvariant db := by
  induction h with
  | seed => unfold slotInvariant; decide
  | app db f t tipo sku qty pos _ ih =>
    rcases register_movement_cases f t tipo sku qty pos db with hc | hc
    · rw [hc]; exact ih
    · rw [hc]; exact slotInvariant_applyMovement t tipo sku qty pos db ih
  | api db t move msg db' _ hok ih =>
    rcases api_accept_inversion t move db msg db' hok with ⟨l, _, _, heff⟩
    rw [heff]
    exact slotInvariant_applyMovement t move.type move.sku move.quantity move.position_id db ih

/-- The slot-record invariant holds on every reachable Spanish state. -/
theorem reachableSp_slotInvariant (sp : SpState) (h : ReachableSp sp) :
    slotInvariantSp sp := by
  induction h with
  | seed => unfold slotInvariantSp; decide
  | entrada sp f sku uid usuario _ ih =>
    rcases registrar_entrada_cases f sku uid usuario sp with hc | hc
    · rw [hc]; exact ih
    · rw [hc]; exact slotInvariantSp_applyEntrada sku uid usuario sp ih
  | salida sp f uid usuario _ ih =>
    rcases registrar_salida_cases f uid usuario sp with hc | ⟨u, _, hc⟩
    · rw [hc]; exact ih
    · rw [hc]; exact slotInvariantSp_applySalida uid usuario u.sku_producto sp ih

/-! ## Stock counting for unit-quantity histories -/

/-- Number of location rows currently occupied by `sku`. -/
def occupiedCount (sku : String) (locs : List Location) : Nat :=
  locs.countP (fun l => l.product_sku = some sku)

/-- Location updates rewrite rows in place, so the column of position
identifiers is unchanged. -/
theorem applyLocationUpdate_ids (tipo : Tipo) (sku pos : String) (locs : List Location) :
    (applyLocationUpdate tipo sku pos locs).map (fun l => l.position_id) =
      locs.map (fun l => l.position_id) := by
  cases tipo <;> simp only [applyLocationUpdate, List.map_map] <;>
    apply List.map_congr_left <;> intro a _ <;> by_cases h : a.position_id = pos <;>
      simp [h, Function.comp]

/-- Appending one ledger row changes a SKU's derived stock by that row's
signed quantity when the SKU matches, and not at all otherwise. -/
theorem currentStock_append (sku : String) (movs : List Movement) (m : Movement) :
    currentStock sku (movs ++ [m]) =
      currentStock sku movs + (if m.sku = sku then movementNet m else 0) := by
  by_cases h : m.sku = sku <;> simp [currentStock, List.filter_append, h]

/-- Rows whose identifier differs from the update target are untouched by
the in-place rewrite. -/
theorem map_update_id (pos : String) (g : Location → Location) (t : List Location)
    (h : ∀ x ∈ t, ¬(x.position_id = pos)) :
    t.map (fun x => if x.position_id = pos then g x else x) = t := by
  induction t with
  | nil => rfl
  | cons b u ih =>
    have hb := h b (List.mem_cons_self b u)
    simp only [List.map_cons, if_neg hb]
    rw [ih (fun x hx => h x (List.mem_cons_of_mem b hx))]

/-- Effect of an accepted Entrada on the per-SKU occupied-slot count: the
target row (previously empty, by the slot invariant) now carries the
incoming SKU, and—the identifiers being distinct—no other row changed. -/
theorem countP_entrada_update (sku pos s : String) (locs : List Location) (l : Location)
    (hnd : (locs.map (fun x => x.position_id)).Nodup)
    (hf : locs.find? (fun x => x.position_id = pos) = some l)
    (hnone : l.product_sku = none) :
    occupiedCount s (applyLocationUpdate Tipo.Entrada sku pos locs) =
      occupiedCount s locs + (if s = sku then 1 else 0) := by
  induction locs with
  | nil => simp at hf
  | cons a t ih =>
    rw [List.map_cons, List.nodup_cons] at hnd
    by_cases ha : a.position_id = pos
    · have hfa : (a :: t).find? (fun x => x.position_id = pos) = some a :=
        List.find?_cons_of_pos _ (by simp [ha])
      rw [hfa] at hf
      have hal : a = l := Option.some.inj hf
      have htail : ∀ x ∈ t, ¬(x.position_id = pos) := by
        intro x hx hc
        have hmem : x.position_id ∈ List.map (fun y => y.position_id) t :=
          List.mem_map_of_mem _ hx
        rw [hc, ← ha] at hmem
        exact hnd.1 hmem
      simp only [applyLocationUpdate, List.map_cons, if_pos ha]
      rw [map_update_id pos _ t htail]
      simp only [occupiedCount, List.countP_cons, hal, hnone]
      by_cases hss : s = sku
      · simp [hss]
      · have hss2 : ¬(sku = s) := fun hc => hss hc.symm
        simp [hss, hss2]
    · have hfa : (a :: t).find? (fun x => x.position_id = pos) = t.find? (fun x => x.position_id = pos) :=
        List.find?_cons_of_neg _ (by simp [ha])
      rw [hfa] at hf
      have ihr := ih hnd.2 hf
      simp only [applyLocationUpdate] at ihr ⊢
      simp only [List.map_cons, if_neg ha]
      simp only [occupiedCount, List.countP_cons] at ihr ⊢
      omega

/-- Effect of an accepted Salida on the per-SKU occupied-slot count: the
target row held `sku` and is emptied; no other row changed. -/
theorem countP_salida_update (sku skuArg pos s : String) (locs : List Location) (l : Location)
    (hnd : (locs.map (fun x => x.position_id)).Nodup)
    (hf : locs.find? (fun x => x.position_id = pos) = some l)
    (hsome : l.product_sku = some sku) :
    occupiedCount s locs =
      occupiedCount s (applyLocationUpdate Tipo.Salida skuArg pos locs) +
        (if s = sku then 1 else 0) := by
  induction locs with
  | nil => simp at hf
  | cons a t ih =>
    rw [List.map_cons, List.nodup_cons] at hnd
    by_cases ha : a.position_id = pos
    · have hfa : (a :: t).find? (fun x => x.position_id = pos) = some a :=
        List.find?_cons_of_pos _ (by simp [ha])
      rw [hfa] at hf
      have hal : a = l := Option.some.inj hf
      have htail : ∀ x ∈ t, ¬(x.position_id = pos) := by
        intro x hx hc
        have hmem : x.position_id ∈ List.map (fun y => y.position_id) t :=
          List.mem_map_of_mem _ hx
        rw [hc, ← ha] at hmem
        exact hnd.1 hmem
      simp only [applyLocationUpdate, List.map_cons, if_pos ha]
      rw [map_update_id pos _ t htail]
      simp only [occupiedCount, List.countP_cons, hal, hsome]
      by_cases hss : s = sku
      · simp [hss]
      · have hss2 : ¬(sku = s) := fun hc => hss hc.symm
        simp [hss, hss2]
    · have hfa : (a :: t).find? (fun x => x.position_id = pos) = t.find? (fun x => x.position_id = pos) :=
        List.find?_cons_of_neg _ (by simp [ha])
      rw [hfa] at hf
      have ihr := ih hnd.2 hf
      simp only [applyLocationUpdate] at ihr ⊢
      simp only [List.map_cons, if_neg ha]
      simp only [occupiedCount, List.countP_cons] at ihr ⊢
      omega

/-- Combined inductive invariant for unit-quantity accepted histories:
distinct position identifiers, the slot-record invariant, and per-SKU
derived stock equal to the number of slots occupied by the SKU. -/
def unitInv (db : DBState) : Prop :=
  (db.locations.map (fun l => l.position_id)).Nodup ∧ slotInvariant db ∧
  ∀ s : String, currentStock s db.movements = (occupiedCount s db.locations : Int)

/-- The combined invariant holds on every unit-quantity reachable
state. -/
theorem reachableUnit_unitInv (db : DBState) (h : ReachableUnit db) : unitInv db := by
  induction h with
  | seed =>
    refine ⟨by decide, reachableEn_slotInvariant seededDB ReachableEn.seed, ?_⟩
    have hsku : ∀ l ∈ seedLocations, l.product_sku = none := by decide
    intro s
    have h0 : occupiedCount s seedLocations = 0 := by
      rw [occupiedCount, List.countP_eq_zero]
      intro l hl
      rw [hsku l hl]
      simp
    have hm : seededDB.movements = [] := rfl
    have hl : seededDB.locations = seedLocations := rfl
    rw [hm, hl, h0]
    simp [currentStock]
  | api db t move msg db' _ hq hok ih =>
    obtain ⟨hnd, hsi, hst⟩ := ih
    rcases api_accept_inversion t move db msg db' hok with ⟨l, hf, hguard, heff⟩
    have hlmem : l ∈ db.locations := List.mem_of_find?_eq_some hf
    subst heff
    rcases hguard with ⟨hty, hfree⟩ | ⟨hty, hocc⟩
    · have hnone : l.product_sku = none := ((hsi l hlmem).2).mp hfree
      rw [hty]
      refine ⟨?_, ?_, ?_⟩
      · show ((applyLocationUpdate Tipo.Entrada move.sku move.position_id db.locations).map
          (fun x => x.position_id)).Nodup
        rw [applyLocationUpdate_ids]
        exact hnd
      · exact slotInvariant_applyMovement t Tipo.Entrada move.sku move.quantity
          move.position_id db hsi
      · intro s
        have hcount := countP_entrada_update move.sku move.position_id s db.locations l hnd hf hnone
        show currentStock s (db.movements ++
            [Movement.mk t Tipo.Entrada move.sku move.quantity move.position_id]) =
          (occupiedCount s (applyLocationUpdate Tipo.Entrada move.sku move.position_id
            db.locations) : Int)
        rw [currentStock_append, hcount, hst s]
        by_cases hss : s = move.sku
        · simp [hss, movementNet, hq]
        · have hss2 : ¬(move.sku = s) := fun hc => hss hc.symm
          simp [hss, hss2]
    · rw [hty]
      refine ⟨?_, ?_, ?_⟩
      · show ((applyLocationUpdate Tipo.Salida move.sku move.position_id db.locations).map
          (fun x => x.position_id)).Nodup
        rw [applyLocationUpdate_ids]
        exact hnd
      · exact slotInvariant_applyMovement t Tipo.Salida move.sku move.quantity
          move.position_id db hsi
      · intro s
        have hcount := countP_salida_update move.sku move.sku move.position_id s db.locations
          l hnd hf hocc
        show currentStock s (db.movements ++
            [Movement.mk t Tipo.Salida move.sku move.quantity move.position_id]) =
          (occupiedCount s (applyLocationUpdate Tipo.Salida move.sku move.position_id
            db.locations) : Int)
        rw [currentStock_append, hst s, hcount]
        by_cases hss : s = move.sku
        · simp only [hss, if_pos rfl, movementNet, hq]
          push_cast
          ring
        · have hss2 : ¬(move.sku = s) := fun hc => hss hc.symm
          simp [hss, hss2]

/-! ## Seeding lemmas (init_db.py and crear_ubicaciones_ejemplo) -/

theorem init_db_idem (db : DBState) : init_db (init_db db) = init_db db := by
  have h20 : seedLocations.length = 20 := by rfl
  have h4 : seedProducts.length = 4 := by rfl
  by_cases hl : db.locations.length = 0 <;> by_cases hp : db.products.length = 0 <;>
    simp [init_db, hl, hp, h20, h4]

theorem insertUbicacion_of_present (sp : SpState) (i : Nat)
    (h : sp.ubicaciones.any (fun u => u.id = posId i) = true) :
    insertUbicacion sp i = sp := by
  simp [insertUbicacion, h]

theorem present_insertUbicacion (sp : SpState) (i j : Nat)
    (h : sp.ubicaciones.any (fun u => u.id = posId i) = true) :
    (insertUbicacion sp j).ubicaciones.any (fun u => u.id = posId i) = true := by
  unfold insertUbicacion
  by_cases hj : sp.ubicaciones.any (fun u => u.id = posId j) = true
  · simp only [hj, if_pos rfl]
    exact h
  · rw [if_neg (by simpa using hj)]
    simp only [List.any_append]
    rw [h]
    rfl

theorem present_self_insert (sp : SpState) (i : Nat) :
    (insertUbicacion sp i).ubicaciones.any (fun u => u.id = posId i) = true := by
  unfold insertUbicacion
  by_cases hi : sp.ubicaciones.any (fun u => u.id = posId i) = true
  · simp only [hi, if_pos rfl]
    exact hi
  · rw [if_neg (by simpa using hi)]
    simp [List.any_append]

theorem present_foldl_preserve (L : List Nat) (sp : SpState) (i : Nat)
    (h : sp.ubicaciones.any (fun u => u.id = posId i) = true) :
    ((L.foldl insertUbicacion sp).ubicaciones.any (fun u => u.id = posId i)) = true := by
  induction L generalizing sp with
  | nil => exact h
  | cons a t ih => exact ih (insertUbicacion sp a) (present_insertUbicacion sp i a h)

theorem present_foldl (L : List Nat) (sp : SpState) (i : Nat) (h : i ∈ L) :
    ((L.foldl insertUbicacion sp).ubicaciones.any (fun u => u.id = posId i)) = true := by
  induction L generalizing sp with
  | nil => cases h
  | cons a t ih =>
    rcases List.mem_cons.mp h with rfl | ht
    · exact present_foldl_preserve t (insertUbicacion sp i) i (present_self_insert sp i)
    · exact ih (insertUbicacion sp a) ht

theorem foldl_insert_id (L : List Nat) (sp : SpState)
    (h : ∀ i ∈ L, sp.ubicaciones.any (fun u => u.id = posId i) = true) :
    L.foldl insertUbicacion sp = sp := by
  induction L generalizing sp with
  | nil => rfl
  | cons a t ih =>
    rw [List.foldl_cons, insertUbicacion_of_present sp a (h a (List.mem_cons_self a t))]
    exact ih sp (fun i hi => h i (List.mem_cons_of_mem a hi))

theorem crear_ubicaciones_idem (cantidad : Nat) (sp : SpState) :
    crear_ubicaciones_ejemplo cantidad (crear_ubicaciones_ejemplo cantidad sp) =
      crear_ubicaciones_ejemplo cantidad sp := by
  unfold crear_ubicaciones_ejemplo
  exact foldl_insert_id _ _ (fun i hi => present_foldl _ sp i hi)

/-! ## Inventory aggregation lemmas (get_inventory) -/

/-- The single SQL CASE sum splits into the inbound sum minus the
outbound sum. -/
theorem net_sum_eq (sku : String) (movs : List Movement) :
    ((movs.filter (fun m => m.sku = sku)).map movementNet).sum =
      ((movs.filter (fun m => m.type = Tipo.Entrada ∧ m.sku = sku)).map
        (fun m => m.quantity)).sum -
      ((movs.filter (fun m => m.type = Tipo.Salida ∧ m.sku = sku)).map
        (fun m => m.quantity)).sum := by
  induction movs with
  | nil => simp
  | cons m t ih =>
    by_cases hs : m.sku = sku
    · cases hty : m.type <;> simp [List.filter_cons, hs, hty, movementNet, ih] <;> ring
    · simp [List.filter_cons, hs, ih]

/-! ## Concrete states used as evidence -/

def demoTime : String := "2024-01-01 10:00:00"

def demoUser : String := "Admin"

def skuP1 : String := "P001"

def skuP2 : String := "P002"

def skuP999 : String := "P999"

def slotA01 : String := posId 1

def slotZ99 : String := "Z-99"

/-- Accepted API request: Entrada of P001 into the free slot A-01. -/
def demoReqIn : MovementRequest := MovementRequest.mk Tipo.Entrada skuP1 1 slotA01

/-- State after the accepted Entrada of P001 into A-01. -/
def demoDB1 : DBState := applyMovement demoTime Tipo.Entrada skuP1 1 slotA01 seededDB

/-- The A-01 row of `demoDB1`. -/
def demoLoc1 : Location := Location.mk slotA01 Status.Ocupada (some skuP1)

/-- The seeded Spanish-schema state: twenty free ubicaciones. -/
def spSeed : SpState := crear_ubicaciones_ejemplo 20 emptySp

/-- Spanish-schema state after an entrada of P001 into A-01. -/
def spOcc : SpState := applyEntrada skuP1 slotA01 demoUser spSeed

/-- The A-01 row of `spOcc`. -/
def demoUb1 : Ubicacion := Ubicacion.mk slotA01 Estado.Ocupada (some skuP1)

/-! ## Claims -/

/-- C1: For every submitted movement request, whether the call commits or a
failure is injected at the ledger INSERT, at the slot UPDATE or at the commit,
the durable state observed after `register_movement` (app.py) and after
`registrar_entrada` (database.py) shows either no effect at all or the appended
ledger row together with the corresponding slot update; a partial effect —
ledger row without slot update or vice versa — is never observable, because
both writes sit in one transaction that is rolled back on failure. -/
theorem atomic_ledger_slot_update :
    (∀ (f : Option Nat) (t : String) (tipo : Tipo) (sku : String) (qty : Int)
        (pos : String) (db : DBState),
      ((register_movement f t tipo sku qty pos db).2.movements = db.movements ∧
       (register_movement f t tipo sku qty pos db).2.locations = db.locations) ∨
      ((register_movement f t tipo sku qty pos db).2.movements =
          db.movements ++ [Movement.mk t tipo sku qty pos] ∧
       (register_movement f t tipo sku qty pos db).2.locations =
          applyLocationUpdate tipo sku pos db.locations)) ∧
    (∀ (f : Option Nat) (sku uid usuario : String) (sp : SpState),
      ((registrar_entrada f sku uid usuario sp).2.movimientos = sp.movimientos ∧
       (registrar_entrada f sku uid usuario sp).2.ubicaciones = sp.ubicaciones) ∨
      ((registrar_entrada f sku uid usuario sp).2.movimientos =
          sp.movimientos ++ [Movimiento.mk TipoMov.ENTRADA (some sku) uid usuario] ∧
       (registrar_entrada f sku uid usuario sp).2.ubicaciones =
          (applyEntrada sku uid usuario sp).ubicaciones)) := by
  constructor
  · intro f t tipo sku qty pos db
    rcases register_movement_cases f t tipo sku qty pos db with hc | hc <;> rw [hc]
    · left; exact ⟨rfl, rfl⟩
    · right; exact ⟨rfl, rfl⟩
  · intro f sku uid usuario sp
    rcases registrar_entrada_cases f sku uid usuario sp with hc | hc <;> rw [hc]
    · left; exact ⟨rfl, rfl⟩
    · right; exact ⟨rfl, rfl⟩

/-- C2: For every slot and every reachable history of movements (any
`register_movement` call, accepted API movements), replaying the full ledger
filtered to that slot's position identifier — folding Entrada to
(Ocupada, sku) and Salida to (Libre, none) from the initial (Libre, none)
state — yields exactly the slot registry's current status and occupant SKU. -/
theorem registry_matches_ledger_replay (db : DBState) (h : ReachableEn db) :
    ∀ l ∈ db.locations,
      replay (db.movements.filter (fun m => m.position_id = l.position_id)) =
        (l.status, l.product_sku) :=
  reachableEn_ledgerConsistent db h

/-- Witness for C2 at the state reached by one accepted Entrada. -/
theorem registry_matches_ledger_replay_witness :
    replay (demoDB1.movements.filter (fun m => m.position_id = demoLoc1.position_id)) =
      (demoLoc1.status, demoLoc1.product_sku) :=
  registry_matches_ledger_replay demoDB1
    (ReachableEn.api seededDB demoTime demoReqIn msgMovementRegistered demoDB1
      ReachableEn.seed (by rfl))
    demoLoc1 (by decide)

/-- C3 counterexample: the API path accepts an Entrada with quantity 0 for the
SKU P999, which has no catalog row, into the free slot A-01 — no
InvalidQuantity or UnknownProduct rejection exists and the ledger row is
appended, contradicting the claimed validation order. -/
def c3Req : MovementRequest := MovementRequest.mk Tipo.Entrada skuP999 0 slotA01

theorem input_validation_counterexample :
    (api_register_movement demoTime c3Req seededDB).1 = Except.ok msgMovementRegistered ∧
    (api_register_movement demoTime c3Req seededDB).2.movements =
      seededDB.movements ++ [Movement.mk demoTime Tipo.Entrada skuP999 0 slotA01] ∧
    c3Req.quantity = 0 ∧
    (seededDB.products.all (fun p => ¬(p.sku = skuP999))) = true := by
  refine ⟨rfl, rfl, rfl, by decide⟩

/-- C3 amended: quantity positivity and catalog membership are never checked;
the only input check before any write is on the slot identifier: a request
naming a slot with no existing row is rejected — the API raises HTTP 400
(reported with the slot-state message, not a dedicated UnknownSlot reason) and
`registrar_entrada` / `registrar_salida` return 'Ubicación no existe.' — and in
each such rejection no ledger entry is appended and no slot state changes. -/
theorem missing_slot_rejected_before_write :
    (∀ (t : String) (move : MovementRequest) (db : DBState),
      db.locations.find? (fun l => l.position_id = move.position_id) = none →
      ((api_register_movement t move db).2 = db ∧
       ∀ m : String, (api_register_movement t move db).1 ≠ Except.ok m)) ∧
    (∀ (f : Option Nat) (sku uid usuario : String) (sp : SpState),
      sp.ubicaciones.find? (fun u => u.id = uid) = none →
      registrar_entrada f sku uid usuario sp = ((false, msgUbicacionNoExiste), sp)) ∧
    (∀ (f : Option Nat) (uid usuario : String) (sp : SpState),
      sp.ubicaciones.find? (fun u => u.id = uid) = none →
      registrar_salida f uid usuario sp = ((false, msgUbicacionNoExiste), sp)) := by
  refine ⟨?_, ?_, ?_⟩
  · intro t move db hnone
    cases hty : move.type with
    | Entrada =>
      simp only [api_register_movement, hty, hnone]
      exact ⟨trivial, by simp⟩
    | Salida =>
      simp only [api_register_movement, hty, hnone]
      exact ⟨trivial, by simp⟩
  · intro f sku uid usuario sp hnone
    unfold registrar_entrada
    rw [hnone]
  · intro f uid usuario sp hnone
    unfold registrar_salida
    rw [hnone]

def reqZ99 : MovementRequest := MovementRequest.mk Tipo.Entrada skuP1 1 slotZ99

/-- Witness for the amended C3 at the nonexistent slot Z-99. -/
theorem missing_slot_rejected_before_write_witness :
    ((api_register_movement demoTime reqZ99 seededDB).2 = seededDB ∧
     (api_register_movement demoTime reqZ99 seededDB).1 ≠ Except.ok msgMovementRegistered) ∧
    registrar_entrada none skuP1 slotZ99 demoUser spSeed =
      ((false, msgUbicacionNoExiste), spSeed) ∧
    registrar_salida none slotZ99 demoUser spSeed =
      ((false, msgUbicacionNoExiste), spSeed) :=
  ⟨⟨(missing_slot_rejected_before_write.1 demoTime reqZ99 seededDB (by decide)).1,
    (missing_slot_rejected_before_write.1 demoTime reqZ99 seededDB (by decide)).2
      msgMovementRegistered⟩,
   missing_slot_rejected_before_write.2.1 none skuP1 slotZ99 demoUser spSeed (by decide),
   missing_slot_rejected_before_write.2.2 none slotZ99 demoUser spSeed (by decide)⟩

/-- State in which A-01 is occupied by P002, reached by an accepted API
Entrada. -/
def c4Occupied : DBState := applyMovement demoTime Tipo.Entrada skuP2 1 slotA01 seededDB

/-- C4 counterexample: `register_movement` (app.py) applies no state-machine
guard — an Entrada targeting the occupied slot A-01 is not rejected with
SlotOccupied: it reports success, appends a ledger row and overwrites the
slot's occupant. -/
theorem slot_guard_counterexample :
    (c4Occupied.locations.find? (fun l => l.position_id = slotA01)).map
        (fun l => l.status) = some Status.Ocupada ∧
    (register_movement none demoTime Tipo.Entrada skuP1 1 slotA01 c4Occupied).1 = true ∧
    (register_movement none demoTime Tipo.Entrada skuP1 1 slotA01 c4Occupied).2.movements =
      c4Occupied.movements ++ [Movement.mk demoTime Tipo.Entrada skuP1 1 slotA01] ∧
    (register_movement none demoTime Tipo.Entrada skuP1 1 slotA01 c4Occupied).2.locations ≠
      c4Occupied.locations := by
  refine ⟨by decide, rfl, rfl, by decide⟩

/-- C4 amended: the guard holds on the validating paths but not on
`register_movement` (app.py), which applies no guard at all.  On the guarded
paths every violating request is rejected and leaves the durable state
unchanged: `registrar_entrada` rejects an entrada into an occupied slot,
`registrar_salida` rejects a salida from an empty slot, and the API rejects an
Entrada into a non-free slot and a Salida whose requested SKU is not the
slot's occupant, each with no ledger append and no registry change. -/
theorem guarded_paths_reject_and_preserve_state :
    (∀ (f : Option Nat) (sku uid usuario : String) (sp : SpState) (u : Ubicacion),
      sp.ubicaciones.find? (fun v => v.id = uid) = some u → u.estado = Estado.Ocupada →
      registrar_entrada f sku uid usuario sp = ((false, msgYaOcupada uid), sp)) ∧
    (∀ (f : Option Nat) (uid usuario : String) (sp : SpState) (u : Ubicacion),
      sp.ubicaciones.find? (fun v => v.id = uid) = some u → u.estado = Estado.Disponible →
      registrar_salida f uid usuario sp = ((false, msgYaVacia), sp)) ∧
    (∀ (t : String) (move : MovementRequest) (db : DBState) (l : Location),
      move.type = Tipo.Entrada →
      db.locations.find? (fun x => x.position_id = move.position_id) = some l →
      ¬(l.status = Status.Libre) →
      api_register_movement t move db = (Except.error msgLocationNotFree, db)) ∧
    (∀ (t : String) (move : MovementRequest) (db : DBState) (l : Location),
      move.type = Tipo.Salida →
      db.locations.find? (fun x => x.position_id = move.position_id) = some l →
      ¬(l.product_sku = some move.sku) →
      api_register_movement t move db = (Except.error msgProductNotAtLocation, db)) := by
  refine ⟨?_, ?_, ?_, ?_⟩
  · intro f sku uid usuario sp u hf ho
    unfold registrar_entrada
    rw [hf]
    simp [ho]
  · intro f uid usuario sp u hf ho
    unfold registrar_salida
    rw [hf]
    simp [ho]
  · intro t move db l hty hf hs
    simp only [api_register_movement, hty, hf]
    simp [hs]
  · intro t move db l hty hf hs
    simp only [api_register_movement, hty, hf]
    simp [hs]

def c4ReqIn2 : MovementRequest := MovementRequest.mk Tipo.Entrada skuP2 1 slotA01

def c4ReqOut1 : MovementRequest := MovementRequest.mk Tipo.Salida skuP1 1 slotA01

/-- Witness for the amended C4 on concrete occupied and free slots. -/
theorem guarded_paths_reject_witness :
    registrar_entrada none skuP2 slotA01 demoUser spOcc =
      ((false, msgYaOcupada slotA01), spOcc) ∧
    registrar_salida none (posId 2) demoUser spOcc = ((false, msgYaVacia), spOcc) ∧
    api_register_movement demoTime c4ReqIn2 c4Occupied =
      (Except.error msgLocationNotFree, c4Occupied) ∧
    api_register_movement demoTime c4ReqOut1 c4Occupied =
      (Except.error msgProductNotAtLocation, c4Occupied) :=
  ⟨guarded_paths_reject_and_preserve_state.1 none skuP2 slotA01 demoUser spOcc demoUb1
      (by decide) rfl,
   guarded_paths_reject_and_preserve_state.2.1 none (posId 2) demoUser spOcc
      (Ubicacion.mk (posId 2) Estado.Disponible none) (by decide) rfl,
   guarded_paths_reject_and_preserve_state.2.2.1 demoTime c4ReqIn2 c4Occupied
      (Location.mk slotA01 Status.Ocupada (some skuP2)) rfl (by decide) (by decide),
   guarded_paths_reject_and_preserve_state.2.2.2 demoTime c4ReqOut1 c4Occupied
      (Location.mk slotA01 Status.Ocupada (some skuP2)) rfl (by decide) (by decide)⟩

/-- Accepted Entrada of one unit of P001 into A-01. -/
def c5ReqIn : MovementRequest := MovementRequest.mk Tipo.Entrada skuP1 1 slotA01

/-- Accepted Salida of two units of P001 from A-01 — the quantity is never
compared with what went in. -/
def c5ReqOut : MovementRequest := MovementRequest.mk Tipo.Salida skuP1 2 slotA01

def c5DB1 : DBState := applyMovement demoTime Tipo.Entrada skuP1 1 slotA01 seededDB

def c5DB2 : DBState := applyMovement demoTime Tipo.Salida skuP1 2 slotA01 c5DB1

/-- C5 counterexample: starting from the seeded state, the API accepts an
Entrada of quantity 1 and then a Salida of quantity 2 for the same SKU and
slot (outbound quantity is never validated against stock), leaving the derived
stock of P001 at −1. -/
theorem stock_negative_counterexample :
    (api_register_movement demoTime c5ReqIn seededDB).1 = Except.ok msgMovementRegistered ∧
    (api_register_movement demoTime c5ReqIn seededDB).2 = c5DB1 ∧
    (api_register_movement demoTime c5ReqOut c5DB1).1 = Except.ok msgMovementRegistered ∧
    (api_register_movement demoTime c5ReqOut c5DB1).2 = c5DB2 ∧
    currentStock skuP1 c5DB2.movements = -1 := by
  refine ⟨rfl, rfl, rfl, rfl, by decide⟩

/-- C5 amended: for every SKU, after any sequence of accepted API movements of
quantity 1 each (the unit-presence model of a slot) starting from the seeded
initial state, the derived stock — inbound sum minus outbound sum — is
non-negative. -/
theorem stock_nonneg_unit_quantities (db : DBState) (h : ReachableUnit db)
    (sku : String) : 0 ≤ currentStock sku db.movements := by
  obtain ⟨_, _, hst⟩ := reachableUnit_unitInv db h
  rw [hst sku]
  exact Int.natCast_nonneg _

/-- Witness for the amended C5 after one accepted unit Entrada. -/
theorem stock_nonneg_unit_quantities_witness :
    0 ≤ currentStock skuP1 c5DB1.movements :=
  stock_nonneg_unit_quantities c5DB1
    (ReachableUnit.api seededDB demoTime c5ReqIn msgMovementRegistered c5DB1
      ReachableUnit.seed rfl (by rfl)) skuP1

/-- C6: the inventory report computes, for each catalog SKU, exactly the sum
of its Entrada quantities minus the sum of its Salida quantities, read from
the movement ledger alone; every catalog SKU appears in the result, every SKU
absent from the catalog is excluded, and the value is returned as computed —
negative values included, never clamped. -/
theorem inventory_is_ledger_net_sum (db : DBState) :
    ((get_inventory db).map (fun r => r.sku) = db.products.map (fun p => p.sku)) ∧
    (∀ p ∈ db.products,
      InventoryRow.mk p.sku p.name p.category
        (((db.movements.filter (fun m => m.type = Tipo.Entrada ∧ m.sku = p.sku)).map
            (fun m => m.quantity)).sum -
         ((db.movements.filter (fun m => m.type = Tipo.Salida ∧ m.sku = p.sku)).map
            (fun m => m.quantity)).sum) ∈ get_inventory db) ∧
    (∀ s : String, (∀ p ∈ db.products, ¬(p.sku = s)) →
      ∀ r ∈ get_inventory db, ¬(r.sku = s)) := by
  refine ⟨?_, ?_, ?_⟩
  · simp [get_inventory, List.map_map, Function.comp]
  · intro p hp
    have hmem : InventoryRow.mk p.sku p.name p.category
        (((db.movements.filter (fun m => m.sku = p.sku)).map movementNet).sum) ∈
          get_inventory db :=
      List.mem_map_of_mem _ hp
    rw [net_sum_eq p.sku db.movements] at hmem
    exact hmem
  · intro s hs r hr
    rcases List.mem_map.mp hr with ⟨p, hp, hfp⟩
    rw [← hfp]
    exact hs p hp

def demoProduct : Product := Product.mk skuP1 ("Laptop Dell") ("Electronica")

/-- Witness for C6 on the two-movement history of the C5 scenario. -/
theorem inventory_is_ledger_net_sum_witness :
    InventoryRow.mk demoProduct.sku demoProduct.name demoProduct.category
      (((c5DB2.movements.filter (fun m => m.type = Tipo.Entrada ∧ m.sku = demoProduct.sku)).map
          (fun m => m.quantity)).sum -
       ((c5DB2.movements.filter (fun m => m.type = Tipo.Salida ∧ m.sku = demoProduct.sku)).map
          (fun m => m.quantity)).sum) ∈ get_inventory c5DB2 :=
  (inventory_is_ledger_net_sum c5DB2).2.1 demoProduct (by decide)

/-- C7: every slot-mutating operation of both schemas preserves the
slot-record invariant: on every state reachable from the seeded initial state
a slot is Occupied exactly when its SKU column is set and Free exactly when it
is NULL. -/
theorem slot_status_iff_occupant :
    (∀ db : DBState, ReachableEn db → ∀ l ∈ db.locations,
      (l.status = Status.Ocupada ↔ l.product_sku.isSome = true) ∧
      (l.status = Status.Libre ↔ l.product_sku = none)) ∧
    (∀ sp : SpState, ReachableSp sp → ∀ u ∈ sp.ubicaciones,
      (u.estado = Estado.Ocupada ↔ u.sku_producto.isSome = true) ∧
      (u.estado = Estado.Disponible ↔ u.sku_producto = none)) :=
  ⟨fun db h => reachableEn_slotInvariant db h, fun sp h => reachableSp_slotInvariant sp h⟩

/-- Witness for C7 at states reached by one entrada in each schema. -/
theorem slot_status_iff_occupant_witness :
    ((demoLoc1.status = Status.Ocupada ↔ demoLoc1.product_sku.isSome = true) ∧
     (demoLoc1.status = Status.Libre ↔ demoLoc1.product_sku = none)) ∧
    ((demoUb1.estado = Estado.Ocupada ↔ demoUb1.sku_producto.isSome = true) ∧
     (demoUb1.estado = Estado.Disponible ↔ demoUb1.sku_producto = none)) :=
  ⟨slot_status_iff_occupant.1 demoDB1
      (ReachableEn.api seededDB demoTime demoReqIn msgMovementRegistered demoDB1
        ReachableEn.seed (by rfl))
      demoLoc1 (by decide),
   slot_status_iff_occupant.2 spOcc
      (by
        have h := ReachableSp.entrada spSeed none skuP1 slotA01 demoUser ReachableSp.seed
        have heq : (registrar_entrada none skuP1 slotA01 demoUser spSeed).2 = spOcc := by
          decide
        rw [heq] at h
        exact h)
      demoUb1 (by decide)⟩

/-- C8: bootstrap seeding is idempotent — running `init_db` twice equals
running it once (for `crear_ubicaciones_ejemplo` likewise, for any count), the
first run on an empty database creates exactly the zero-padded slots A-01
through A-20, all free with no occupant, and exactly the four sample
products. -/
theorem seeding_idempotent :
    (∀ db : DBState, init_db (init_db db) = init_db db) ∧
    (∀ (cantidad : Nat) (sp : SpState),
      crear_ubicaciones_ejemplo cantidad (crear_ubicaciones_ejemplo cantidad sp) =
        crear_ubicaciones_ejemplo cantidad sp) ∧
    seededDB.locations.map (fun l => l.position_id) =
      [("A-01"), ("A-02"), ("A-03"), ("A-04"), ("A-05"), ("A-06"), ("A-07"), ("A-08"),
       ("A-09"), ("A-10"), ("A-11"), ("A-12"), ("A-13"), ("A-14"), ("A-15"), ("A-16"),
       ("A-17"), ("A-18"), ("A-19"), ("A-20")] ∧
    (seededDB.locations.all
      (fun l => decide (l.status = Status.Libre) && decide (l.product_sku = none))) = true ∧
    seededDB.products = seedProducts := by
  refine ⟨init_db_idem, crear_ubicaciones_idem, by decide, by decide, rfl⟩

/-- Every reachable English-schema state keeps the position-identifier
column of `locations` exactly as seeded: movement registration rewrites
rows in place (SQL UPDATE preserves rowids) and never inserts or deletes
location rows. -/
theorem reachableEn_ids (db : DBState) (h : ReachableEn db) :
    db.locations.map (fun l => l.position_id) =
      seedLocations.map (fun l => l.position_id) := by
  induction h with
  | seed => rfl
  | app db f t tipo sku qty pos _ ih =>
    rcases register_movement_cases f t tipo sku qty pos db with hc | hc <;> rw [hc]
    · exact ih
    · show ((applyMovement t tipo sku qty pos db).locations.map (fun l => l.position_id)) = _
      rw [show (applyMovement t tipo sku qty pos db).locations =
            applyLocationUpdate tipo sku pos db.locations from rfl]
      rw [applyLocationUpdate_ids]
      exact ih
  | api db t move msg db' _ hok ih =>
    rcases api_accept_inversion t move db msg db' hok with ⟨l, _, _, heff⟩
    rw [heff]
    rw [show (applyMovement t move.type move.sku move.quantity move.position_id db).locations =
          applyLocationUpdate move.type move.sku move.position_id db.locations from rfl]
    rw [applyLocationUpdate_ids]
    exact ih

/-- C9: the listing of all slot states is ordered by slot identifier
ascending (lexicographically on the position code): `obtener_estado_almacen`
(database.py) ORDER-BYs the identifier, so its rows are sorted for every
registry state and its identifier column is a permutation of the registry's
identifiers (nothing dropped or invented); `get_locations` (app.py) issues no
ORDER BY but returns rowid order, whose identifier column on every reachable
state is exactly the seeded ascending sequence A-01, A-02, ..., A-20. -/
theorem list_all_sorted_by_slot_id :
    (∀ sp : SpState,
      List.Sorted (fun a b => a ≤ b)
        ((obtener_estado_almacen sp).map (fun r => r.ubicacion)) ∧
      ((obtener_estado_almacen sp).map (fun r => r.ubicacion)).Perm
        (sp.ubicaciones.map (fun u => u.id))) ∧
    (∀ db : DBState, ReachableEn db →
      (get_locations db).map (fun l => l.position_id) =
        [("A-01"), ("A-02"), ("A-03"), ("A-04"), ("A-05"), ("A-06"), ("A-07"), ("A-08"),
         ("A-09"), ("A-10"), ("A-11"), ("A-12"), ("A-13"), ("A-14"), ("A-15"), ("A-16"),
         ("A-17"), ("A-18"), ("A-19"), ("A-20")]) := by
  constructor
  · intro sp
    have hmap : (obtener_estado_almacen sp).map (fun r => r.ubicacion) =
        (sp.ubicaciones.insertionSort ubicacionLE).map (fun u => u.id) := by
      rw [obtener_estado_almacen, List.map_map]
      apply List.map_congr_left
      intro u _
      cases h : u.sku_producto.bind (fun s => sp.productos.find? (fun p => p.sku = s)) <;>
        simp [Function.comp, h]
    constructor
    · rw [hmap]
      have hs := List.sorted_insertionSort ubicacionLE sp.ubicaciones
      exact List.pairwise_map.mpr hs
    · rw [hmap]
      exact (List.perm_insertionSort ubicacionLE sp.ubicaciones).map (fun u => u.id)
  · intro db h
    rw [get_locations, reachableEn_ids db h]
    decide

/-- Witness for the reachable-state half of C9 after one accepted
Entrada. -/
theorem list_all_sorted_by_slot_id_witness :
    (get_locations demoDB1).map (fun l => l.position_id) =
      [("A-01"), ("A-02"), ("A-03"), ("A-04"), ("A-05"), ("A-06"), ("A-07"), ("A-08"),
       ("A-09"), ("A-10"), ("A-11"), ("A-12"), ("A-13"), ("A-14"), ("A-15"), ("A-16"),
       ("A-17"), ("A-18"), ("A-19"), ("A-20")] :=
  list_all_sorted_by_slot_id.2 demoDB1
    (ReachableEn.api seededDB demoTime demoReqIn msgMovementRegistered demoDB1
      ReachableEn.seed (by rfl))

/-- C10: `registrar_salida`, which takes no SKU argument, records in the
appended outbound ledger row exactly the SKU that occupied the slot at the
moment of the call — the occupant is read from the registry row, never from
caller input. -/
theorem salida_records_registry_occupant (uid usuario : String) (sp : SpState)
    (u : Ubicacion) (hf : sp.ubicaciones.find? (fun v => v.id = uid) = some u)
    (ho : u.estado = Estado.Ocupada) :
    (registrar_salida none uid usuario sp).1.1 = true ∧
    (registrar_salida none uid usuario sp).2.movimientos =
      sp.movimientos ++ [Movimiento.mk TipoMov.SALIDA u.sku_producto uid usuario] := by
  rw [registrar_salida_success uid usuario sp u hf ho]
  exact ⟨rfl, rfl⟩

/-- Witness for C10 on the occupied slot A-01. -/
theorem salida_records_registry_occupant_witness :
    (registrar_salida none slotA01 demoUser spOcc).1.1 = true ∧
    (registrar_salida none slotA01 demoUser spOcc).2.movimientos =
      spOcc.movimientos ++ [Movimiento.mk TipoMov.SALIDA demoUb1.sku_producto slotA01 demoUser] :=
  salida_records_registry_occupant slotA01 demoUser spOcc demoUb1 (by decide) rfl

end WMS
